import Mathlib

/-!
Verification of the v-storage key/value abstraction layer.

This file embeds, in Lean, the data model and operations of the repository:
the `StorageResult` outcome type and `StorageId` namespaces (src/common.rs),
the in-memory backend (src/memory_storage.rs), the three dispatch wrappers
(src/vstorage.rs), the remote read-only client (src/remote_storage_client.rs),
and the transaction/commit skeletons of the embedded LMDB and MDBX backends
(src/lmdb_storage.rs, src/mdbx_storage.rs).  External collaborators (the
domain-object parser, the database engines, the network socket) are modelled
as explicit oracles: an operation that consults the engine takes the engine's
answer as an argument, so every modelled function is a total, executable
Lean definition.
-/

set_option autoImplicit false
set_option maxRecDepth 8192

namespace VStore

/-- `StorageId` from src/common.rs: the closed namespace enumeration. -/
inductive StorageId where
  | Individuals
  | Tickets
  | Az
deriving DecidableEq, Repr

/-- `StorageResult<T>` from src/common.rs: the five-tag outcome type. -/
inductive StorageResult (T : Type) where
  | Ok : T → StorageResult T
  | NotFound : StorageResult T
  | NotReady : StorageResult T
  | UnprocessableEntity : StorageResult T
  | Error : String → StorageResult T
deriving DecidableEq, Repr

namespace StorageResult

/-- `StorageResult::is_ok` from src/common.rs. -/
def is_ok {T : Type} : StorageResult T → Bool
  | Ok _ => true
  | _ => false

/-- `StorageResult::map` from src/common.rs (lines 45-56). -/
def map {T U : Type} (f : T → U) : StorageResult T → StorageResult U
  | Ok value => Ok (f value)
  | NotFound => NotFound
  | NotReady => NotReady
  | UnprocessableEntity => UnprocessableEntity
  | Error msg => Error msg

/-- `StorageResult::and_then` from src/common.rs (lines 58-69). -/
def and_then {T U : Type} (f : T → StorageResult U) : StorageResult T → StorageResult U
  | Ok value => f value
  | NotFound => NotFound
  | NotReady => NotReady
  | UnprocessableEntity => UnprocessableEntity
  | Error msg => Error msg

end StorageResult

/-- `StorageMode` from src/common.rs (lines 3-7). -/
inductive StorageMode where
  | ReadOnly
  | ReadWrite
deriving DecidableEq, Repr

/-!
## Byte-level model of Rust strings

Rust's `String` is a sequence of unicode scalar values stored as UTF-8
bytes; Lean's `Char` is likewise a unicode scalar value.  `str::as_bytes`
and `String::from_utf8` (used by `memory_storage.rs` for `put_value` /
`get_value`) are modelled by an explicit UTF-8 encoder and decoder over
`List Nat` bytes.
-/

/-- UTF-8 encoding of one unicode scalar value (model of Rust `char` encoding). -/
def encChar (c : Char) : List Nat :=
  if c.toNat < 0x80 then [c.toNat]
  else if c.toNat < 0x800 then
    [0xC0 + c.toNat / 64, 0x80 + c.toNat % 64]
  else if c.toNat < 0x10000 then
    [0xE0 + c.toNat / 4096, 0x80 + c.toNat / 64 % 64, 0x80 + c.toNat % 64]
  else
    [0xF0 + c.toNat / 262144, 0x80 + c.toNat / 4096 % 64,
     0x80 + c.toNat / 64 % 64, 0x80 + c.toNat % 64]

/-- UTF-8 encoding of a character sequence. -/
def encList : List Char → List Nat
  | [] => []
  | c :: cs => encChar c ++ encList cs

/-- Model of Rust `str::as_bytes` / `String::into_bytes`. -/
def strBytes (s : String) : List Nat :=
  encList s.data

/-- UTF-8 decoder: model of the byte-level validation performed by Rust
`String::from_utf8` (rejecting truncated sequences, stray continuation
bytes, overlong encodings, surrogates and out-of-range values). -/
def decChars : List Nat → Option (List Char)
  | [] => some []
  | b :: rest =>
    if b < 0x80 then
      (decChars rest).map (fun cs => Char.ofNat b :: cs)
    else if b < 0xC0 then none
    else if b < 0xE0 then
      match rest with
      | [] => none
      | b1 :: rest1 =>
        if 0x80 ≤ b1 ∧ b1 < 0xC0 then
          if 0x80 ≤ (b - 0xC0) * 64 + (b1 - 0x80) then
            (decChars rest1).map (fun cs => Char.ofNat ((b - 0xC0) * 64 + (b1 - 0x80)) :: cs)
          else none
        else none
    else if b < 0xF0 then
      match rest with
      | [] => none
      | b1 :: rest1 =>
        match rest1 with
        | [] => none
        | b2 :: rest2 =>
          if (0x80 ≤ b1 ∧ b1 < 0xC0) ∧ (0x80 ≤ b2 ∧ b2 < 0xC0) then
            if 0x800 ≤ (b - 0xE0) * 4096 + (b1 - 0x80) * 64 + (b2 - 0x80) ∧
               ((b - 0xE0) * 4096 + (b1 - 0x80) * 64 + (b2 - 0x80) < 0xD800 ∨
                0xDFFF < (b - 0xE0) * 4096 + (b1 - 0x80) * 64 + (b2 - 0x80)) then
              (decChars rest2).map
                (fun cs => Char.ofNat ((b - 0xE0) * 4096 + (b1 - 0x80) * 64 + (b2 - 0x80)) :: cs)
            else none
          else none
    else if b < 0xF8 then
      match rest with
      | [] => none
      | b1 :: rest1 =>
        match rest1 with
        | [] => none
        | b2 :: rest2 =>
          match rest2 with
          | [] => none
          | b3 :: rest3 =>
            if (0x80 ≤ b1 ∧ b1 < 0xC0) ∧ (0x80 ≤ b2 ∧ b2 < 0xC0) ∧ (0x80 ≤ b3 ∧ b3 < 0xC0) then
              if 0x10000 ≤ (b - 0xF0) * 262144 + (b1 - 0x80) * 4096 +
                   (b2 - 0x80) * 64 + (b3 - 0x80) ∧
                 (b - 0xF0) * 262144 + (b1 - 0x80) * 4096 +
                   (b2 - 0x80) * 64 + (b3 - 0x80) < 0x110000 then
                (decChars rest3).map
                  (fun cs =>
                    Char.ofNat ((b - 0xF0) * 262144 + (b1 - 0x80) * 4096 +
                      (b2 - 0x80) * 64 + (b3 - 0x80)) :: cs)
              else none
            else none
    else none

/-- Model of Rust `String::from_utf8`. -/
def fromUtf8 (l : List Nat) : Option String :=
  (decChars l).map String.mk

/-!
## In-memory backend (src/memory_storage.rs)

`MemoryStorage` holds three `RwLock<HashMap<String, Vec<u8>>>`, one per
namespace.  A lock is modelled by a `poisoned` flag (a Rust `RwLock` guard
acquisition fails exactly when a prior panic poisoned the lock) together
with the map contents; a `HashMap<String, Vec<u8>>` is modelled by an
association list with `lookup` / `insert` / `remove` / `len`.  The external
domain-object parser `parse_raw` is an oracle `parseOk : List Nat → Bool`,
and an `Individual` is modelled by its raw-bytes field set via `set_raw`.
A Rust panic is modelled by the `none` value of an `Option` result.
-/

/-- `HashMap::get` on the association-list model. -/
def mapGet (m : List (String × List Nat)) (k : String) : Option (List Nat) :=
  match m with
  | [] => none
  | (k1, v) :: rest => if k1 = k then some v else mapGet rest k

/-- `HashMap::remove`'s effect on the contents (drop the binding of `k`). -/
def mapRemove (m : List (String × List Nat)) (k : String) : List (String × List Nat) :=
  m.filter (fun p => p.1 ≠ k)

/-- `HashMap::insert`'s effect on the contents (bind `k` to `v`, replacing
any previous binding). -/
def mapInsert (m : List (String × List Nat)) (k : String) (v : List Nat) :
    List (String × List Nat) :=
  (k, v) :: mapRemove m k

/-- One `RwLock<HashMap<String, Vec<u8>>>` of src/memory_storage.rs. -/
structure GuardedMap where
  poisoned : Bool
  entries : List (String × List Nat)
deriving DecidableEq, Repr

/-- The caller-supplied domain object, consumed via `set_raw` (external
collaborator; only its raw-bytes slot is observable to this layer). -/
structure Individual where
  raw : List Nat
deriving DecidableEq, Repr

/-- `MemoryStorage` from src/memory_storage.rs (lines 9-13). -/
structure MemoryStorage where
  individuals : GuardedMap
  tickets : GuardedMap
  az : GuardedMap
deriving DecidableEq, Repr

namespace MemoryStorage

/-- `MemoryStorage::new` (lines 22-28): three empty, unpoisoned maps. -/
def new : MemoryStorage :=
  { individuals := { poisoned := false, entries := [] },
    tickets := { poisoned := false, entries := [] },
    az := { poisoned := false, entries := [] } }

/-- `MemoryStorage::get_storage` (lines 30-36). -/
def get_storage (self : MemoryStorage) (storage : StorageId) : GuardedMap :=
  match storage with
  | .Individuals => self.individuals
  | .Tickets => self.tickets
  | .Az => self.az

/-- Writing back the namespace map selected by `get_storage` (the in-place
mutation through the exclusive guard in Rust). -/
def set_storage (self : MemoryStorage) (storage : StorageId) (g : GuardedMap) :
    MemoryStorage :=
  match storage with
  | .Individuals => { self with individuals := g }
  | .Tickets => { self with tickets := g }
  | .Az => { self with az := g }

/-- `get_individual` (lines 56-67).  Note the source reads the guard with
`.read().unwrap()`: a poisoned lock makes `unwrap` panic (`none` here).
On a hit the bytes are `set_raw` on `iraw` and handed to `parse_raw`. -/
def get_individual (parseOk : List Nat → Bool) (self : MemoryStorage)
    (storage : StorageId) (uri : String) (iraw : Individual) :
    Option (Individual × StorageResult Unit) :=
  let g := self.get_storage storage
  if g.poisoned then none
  else
    match mapGet g.entries uri with
    | some data =>
      if parseOk data then some ({ raw := data }, .Ok ())
      else some ({ raw := data }, .UnprocessableEntity)
    | none => some (iraw, .NotFound)

/-- `get_value` (lines 69-81): `if let Ok(map) = ... .read()` turns a
poisoned guard into `NotReady`; a hit is decoded with `String::from_utf8`. -/
def get_value (self : MemoryStorage) (storage : StorageId) (key : String) :
    StorageResult String :=
  let g := self.get_storage storage
  if g.poisoned then .NotReady
  else
    match mapGet g.entries key with
    | some val =>
      match fromUtf8 val with
      | some string_val => .Ok string_val
      | none => .Error "Invalid UTF-8 data"
    | none => .NotFound

/-- `get_raw_value` (lines 83-92). -/
def get_raw_value (self : MemoryStorage) (storage : StorageId) (key : String) :
    StorageResult (List Nat) :=
  let g := self.get_storage storage
  if g.poisoned then .NotReady
  else
    match mapGet g.entries key with
    | some val => .Ok val
    | none => .NotFound

/-- `put_value` (lines 94-101): stores `val.as_bytes().to_vec()`. -/
def put_value (self : MemoryStorage) (storage : StorageId) (key : String)
    (val : String) : MemoryStorage × StorageResult Unit :=
  let g := self.get_storage storage
  if g.poisoned then (self, .NotReady)
  else
    (self.set_storage storage { g with entries := mapInsert g.entries key (strBytes val) },
     .Ok ())

/-- `put_raw_value` (lines 103-110). -/
def put_raw_value (self : MemoryStorage) (storage : StorageId) (key : String)
    (val : List Nat) : MemoryStorage × StorageResult Unit :=
  let g := self.get_storage storage
  if g.poisoned then (self, .NotReady)
  else
    (self.set_storage storage { g with entries := mapInsert g.entries key val }, .Ok ())

/-- `remove_value` (lines 112-121): `map.remove(key)` is `Some` exactly on a
present key. -/
def remove_value (self : MemoryStorage) (storage : StorageId) (key : String) :
    MemoryStorage × StorageResult Unit :=
  let g := self.get_storage storage
  if g.poisoned then (self, .NotReady)
  else
    match mapGet g.entries key with
    | some _ =>
      (self.set_storage storage { g with entries := mapRemove g.entries key }, .Ok ())
    | none => (self, .NotFound)

/-- `count` (lines 123-129). -/
def count (self : MemoryStorage) (storage : StorageId) :
    StorageResult Nat :=
  let g := self.get_storage storage
  if g.poisoned then .NotReady
  else .Ok g.entries.length

end MemoryStorage


/-!
## The `Storage` capability trait and the three dispatch wrappers
(src/common.rs lines 78-155, src/vstorage.rs)

The trait `Storage` is one record of the seven operations over a backend
state type: `&mut self` receivers become explicit state passing, bytes are
`List Nat`, `usize` is `Nat`, and `get_individual`'s out-parameter
`iraw: &mut Individual` is threaded through explicitly.
-/

/-- The `Storage` trait (src/common.rs lines 78-86) over a backend state `σ`. -/
structure StorageOps (σ : Type) where
  get_individual : σ → StorageId → String → Individual → σ × Individual × StorageResult Unit
  get_value : σ → StorageId → String → σ × StorageResult String
  get_raw_value : σ → StorageId → String → σ × StorageResult (List Nat)
  put_value : σ → StorageId → String → String → σ × StorageResult Unit
  put_raw_value : σ → StorageId → String → List Nat → σ × StorageResult Unit
  remove_value : σ → StorageId → String → σ × StorageResult Unit
  count : σ → StorageId → σ × StorageResult Nat

/-- One request against the seven-operation contract (used to compare the
three dispatch wrappers on identical operation sequences). -/
inductive StorageOp where
  | get_individual (storage : StorageId) (id : String) (iraw : Individual)
  | get_value (storage : StorageId) (key : String)
  | get_raw_value (storage : StorageId) (key : String)
  | put_value (storage : StorageId) (key : String) (val : String)
  | put_raw_value (storage : StorageId) (key : String) (val : List Nat)
  | remove_value (storage : StorageId) (key : String)
  | count (storage : StorageId)
deriving DecidableEq, Repr

/-- The `StorageResult` of one request, tagged with its payload type. -/
inductive OpReply where
  | unitRes (r : StorageResult Unit)
  | strRes (r : StorageResult String)
  | bytesRes (r : StorageResult (List Nat))
  | natRes (r : StorageResult Nat)
deriving DecidableEq, Repr

/-- Dispatch of one request to a backend through its `Storage` impl. -/
def StorageOps.step {σ : Type} (B : StorageOps σ) (s : σ) : StorageOp → σ × OpReply
  | .get_individual st id iraw =>
    let p := B.get_individual s st id iraw
    (p.1, .unitRes p.2.2)
  | .get_value st key =>
    let p := B.get_value s st key
    (p.1, .strRes p.2)
  | .get_raw_value st key =>
    let p := B.get_raw_value s st key
    (p.1, .bytesRes p.2)
  | .put_value st key val =>
    let p := B.put_value s st key val
    (p.1, .unitRes p.2)
  | .put_raw_value st key val =>
    let p := B.put_raw_value s st key val
    (p.1, .unitRes p.2)
  | .remove_value st key =>
    let p := B.remove_value s st key
    (p.1, .unitRes p.2)
  | .count st =>
    let p := B.count s st
    (p.1, .natRes p.2)

/-- `VStorage` (src/vstorage.rs lines 152-154): dynamic wrapper holding
`Option<Box<dyn Storage>>`.  The boxed trait object is the backend state. -/
structure VStorage (σ : Type) where
  storage : Option σ

namespace VStorage

/-- `VStorage::none` (lines 172-176). -/
def none {σ : Type} : VStorage σ := { storage := Option.none }

/-- `VStorage::new` (lines 184-188). -/
def new {σ : Type} (s : σ) : VStorage σ := { storage := some s }

/-- `StorageDispatcher::with_storage` for `VStorage` (lines 156-168). -/
def with_storage {σ T : Type} (self : VStorage σ) (default_value : T)
    (operation : σ → σ × T) : VStorage σ × T :=
  match self.storage with
  | some s =>
    let p := operation s
    ({ storage := some p.1 }, p.2)
  | Option.none => (self, default_value)

/-- `get_individual_from_storage` (lines 210-212). -/
def get_individual_from_storage {σ : Type} (B : StorageOps σ) (self : VStorage σ)
    (storage : StorageId) (id : String) (iraw : Individual) :
    VStorage σ × Individual × StorageResult Unit :=
  self.with_storage (iraw, .NotReady)
    (fun s =>
      let p := B.get_individual s storage id iraw
      (p.1, p.2))

/-- `get_value` (lines 214-216), via `with_storage_value` (common.rs 148-154). -/
def get_value {σ : Type} (B : StorageOps σ) (self : VStorage σ) (storage : StorageId)
    (id : String) : VStorage σ × StorageResult String :=
  self.with_storage .NotReady (fun s => B.get_value s storage id)

/-- `get_raw_value` (lines 218-220). -/
def get_raw_value {σ : Type} (B : StorageOps σ) (self : VStorage σ) (storage : StorageId)
    (id : String) : VStorage σ × StorageResult (List Nat) :=
  self.with_storage .NotReady (fun s => B.get_raw_value s storage id)

/-- `put_value` (lines 222-224), via `with_storage_result` (common.rs 141-146). -/
def put_value {σ : Type} (B : StorageOps σ) (self : VStorage σ) (storage : StorageId)
    (key : String) (val : String) : VStorage σ × StorageResult Unit :=
  self.with_storage .NotReady (fun s => B.put_value s storage key val)

/-- `put_raw_value` (lines 226-228). -/
def put_raw_value {σ : Type} (B : StorageOps σ) (self : VStorage σ) (storage : StorageId)
    (key : String) (val : List Nat) : VStorage σ × StorageResult Unit :=
  self.with_storage .NotReady (fun s => B.put_raw_value s storage key val)

/-- `remove_value` (lines 230-232). -/
def remove_value {σ : Type} (B : StorageOps σ) (self : VStorage σ) (storage : StorageId)
    (key : String) : VStorage σ × StorageResult Unit :=
  self.with_storage .NotReady (fun s => B.remove_value s storage key)

/-- `count` (lines 234-236). -/
def count {σ : Type} (B : StorageOps σ) (self : VStorage σ) (storage : StorageId) :
    VStorage σ × StorageResult Nat :=
  self.with_storage .NotReady (fun s => B.count s storage)

/-- One request against the dynamic wrapper. -/
def step {σ : Type} (B : StorageOps σ) (self : VStorage σ) :
    StorageOp → VStorage σ × OpReply
  | .get_individual st id iraw =>
    let p := self.get_individual_from_storage B st id iraw
    (p.1, .unitRes p.2.2)
  | .get_value st key =>
    let p := self.get_value B st key
    (p.1, .strRes p.2)
  | .get_raw_value st key =>
    let p := self.get_raw_value B st key
    (p.1, .bytesRes p.2)
  | .put_value st key val =>
    let p := self.put_value B st key val
    (p.1, .unitRes p.2)
  | .put_raw_value st key val =>
    let p := self.put_raw_value B st key val
    (p.1, .unitRes p.2)
  | .remove_value st key =>
    let p := self.remove_value B st key
    (p.1, .unitRes p.2)
  | .count st =>
    let p := self.count B st
    (p.1, .natRes p.2)

end VStorage

/-- `VStorageGeneric<S>` (src/vstorage.rs lines 287-289): compile-time
monomorphized wrapper, same `Option` shape as `VStorage`. -/
structure VStorageGeneric (σ : Type) where
  storage : Option σ

namespace VStorageGeneric

/-- `VStorageGeneric::none` (lines 314-318). -/
def none {σ : Type} : VStorageGeneric σ := { storage := Option.none }

/-- `VStorageGeneric::new` (lines 307-311). -/
def new {σ : Type} (s : σ) : VStorageGeneric σ := { storage := some s }

/-- `StorageDispatcher::with_storage` for `VStorageGeneric` (lines 291-303). -/
def with_storage {σ T : Type} (self : VStorageGeneric σ) (default_value : T)
    (operation : σ → σ × T) : VStorageGeneric σ × T :=
  match self.storage with
  | some s =>
    let p := operation s
    ({ storage := some p.1 }, p.2)
  | Option.none => (self, default_value)

/-- `get_individual_from_storage` (lines 348-350). -/
def get_individual_from_storage {σ : Type} (B : StorageOps σ) (self : VStorageGeneric σ)
    (storage : StorageId) (id : String) (iraw : Individual) :
    VStorageGeneric σ × Individual × StorageResult Unit :=
  self.with_storage (iraw, .NotReady)
    (fun s =>
      let p := B.get_individual s storage id iraw
      (p.1, p.2))

/-- `get_value` (lines 352-354). -/
def get_value {σ : Type} (B : StorageOps σ) (self : VStorageGeneric σ) (storage : StorageId)
    (id : String) : VStorageGeneric σ × StorageResult String :=
  self.with_storage .NotReady (fun s => B.get_value s storage id)

/-- `get_raw_value` (lines 356-358). -/
def get_raw_value {σ : Type} (B : StorageOps σ) (self : VStorageGeneric σ)
    (storage : StorageId) (id : String) : VStorageGeneric σ × StorageResult (List Nat) :=
  self.with_storage .NotReady (fun s => B.get_raw_value s storage id)

/-- `put_value` (lines 360-362). -/
def put_value {σ : Type} (B : StorageOps σ) (self : VStorageGeneric σ) (storage : StorageId)
    (key : String) (val : String) : VStorageGeneric σ × StorageResult Unit :=
  self.with_storage .NotReady (fun s => B.put_value s storage key val)

/-- `put_raw_value` (lines 364-366). -/
def put_raw_value {σ : Type} (B : StorageOps σ) (self : VStorageGeneric σ)
    (storage : StorageId) (key : String) (val : List Nat) :
    VStorageGeneric σ × StorageResult Unit :=
  self.with_storage .NotReady (fun s => B.put_raw_value s storage key val)

/-- `remove_value` (lines 368-370). -/
def remove_value {σ : Type} (B : StorageOps σ) (self : VStorageGeneric σ)
    (storage : StorageId) (key : String) : VStorageGeneric σ × StorageResult Unit :=
  self.with_storage .NotReady (fun s => B.remove_value s storage key)

/-- `count` (lines 372-374). -/
def count {σ : Type} (B : StorageOps σ) (self : VStorageGeneric σ) (storage : StorageId) :
    VStorageGeneric σ × StorageResult Nat :=
  self.with_storage .NotReady (fun s => B.count s storage)

/-- One request against the generic wrapper. -/
def step {σ : Type} (B : StorageOps σ) (self : VStorageGeneric σ) :
    StorageOp → VStorageGeneric σ × OpReply
  | .get_individual st id iraw =>
    let p := self.get_individual_from_storage B st id iraw
    (p.1, .unitRes p.2.2)
  | .get_value st key =>
    let p := self.get_value B st key
    (p.1, .strRes p.2)
  | .get_raw_value st key =>
    let p := self.get_raw_value B st key
    (p.1, .bytesRes p.2)
  | .put_value st key val =>
    let p := self.put_value B st key val
    (p.1, .unitRes p.2)
  | .put_raw_value st key val =>
    let p := self.put_raw_value B st key val
    (p.1, .unitRes p.2)
  | .remove_value st key =>
    let p := self.remove_value B st key
    (p.1, .unitRes p.2)
  | .count st =>
    let p := self.count B st
    (p.1, .natRes p.2)

end VStorageGeneric

/-- `VStorageEnum` (src/vstorage.rs lines 20-27): closed enum over the
backend kinds, with an explicit `None` variant.  The backend kinds are
parameters `σm` (memory), `σl` (LMDB), `σr` (remote); each variant
dispatches through its own `Storage` impl (the three `StorageOps` below). -/
inductive VStorageEnum (σm σl σr : Type) where
  | Memory (s : σm)
  | Lmdb (s : σl)
  | Remote (s : σr)
  | None

namespace VStorageEnum

variable {σm σl σr : Type}

/-- One request against the closed-enum wrapper: the `match self` dispatch
of `impl Storage for VStorageEnum` (lines 63-140), one arm per variant and
`NotReady` on `None`, uniformly over the seven methods. -/
def step (Bm : StorageOps σm) (Bl : StorageOps σl) (Br : StorageOps σr)
    (self : VStorageEnum σm σl σr) (op : StorageOp) : VStorageEnum σm σl σr × OpReply :=
  match self with
  | .Memory s =>
    let p := Bm.step s op
    (.Memory p.1, p.2)
  | .Lmdb s =>
    let p := Bl.step s op
    (.Lmdb p.1, p.2)
  | .Remote s =>
    let p := Br.step s op
    (.Remote p.1, p.2)
  | .None =>
    (.None,
     match op with
     | .get_individual _ _ _ => .unitRes .NotReady
     | .get_value _ _ => .strRes .NotReady
     | .get_raw_value _ _ => .bytesRes .NotReady
     | .put_value _ _ _ => .unitRes .NotReady
     | .put_raw_value _ _ _ => .unitRes .NotReady
     | .remove_value _ _ => .unitRes .NotReady
     | .count _ => .natRes .NotReady)

end VStorageEnum

/-- Feeding a sequence of requests through a stepping function, collecting
the sequence of replies. -/
def runOps {α : Type} (step : α → StorageOp → α × OpReply) : α → List StorageOp → List OpReply
  | _, [] => []
  | a, op :: ops => (step a op).2 :: runOps step (step a op).1 ops


/-!
## Remote read-only client (src/remote_storage_client.rs)

The nng request/response socket is external; one call's interactions with
it are an oracle `NetStep` (whether `dial` would succeed, whether `send`
succeeds, and what `recv` returns — `none` being a receive error).  The
message actually handed to `send` is exposed as an `Option (List Nat)`
component of the result so the wire format is observable.
-/

/-- `StorageROClient` (lines 9-13): address and cached readiness (the
socket object carries no further observable state). -/
structure StorageROClient where
  addr : String
  is_ready : Bool
deriving DecidableEq, Repr

/-- Socket oracle for one `get_individual_from_db` call. -/
structure NetStep where
  dialOk : Bool
  sendOk : Bool
  recv : Option (List Nat)
deriving DecidableEq, Repr

namespace StorageROClient

/-- `StorageROClient::new` (lines 26-32). -/
def new (addr : String) : StorageROClient :=
  { addr := addr, is_ready := false }

/-- `connect` (lines 34-43): dial the address, record readiness, return it. -/
def connect (self : StorageROClient) (dialOk : Bool) : StorageROClient × Bool :=
  if dialOk then ({ self with is_ready := true }, true)
  else ({ self with is_ready := false }, false)

/-- The request message built at lines 51-55: `"t," + id` for `Tickets`,
`"i," + id` for every other namespace. -/
def mkRequest (db_id : StorageId) (id : String) : List Nat :=
  if db_id = .Tickets then strBytes ("t," ++ id) else strBytes ("i," ++ id)

/-- `get_individual_from_db` (lines 45-85): ensure readiness (dialing
lazily; connection failure returns `NotReady` without sending), send
`mkRequest`, block for one reply.  Send or receive failure yields
`NotReady`.  A reply equal to the two-byte literal `[]` yields `NotFound`;
any other reply is set whole on the individual (`iraw.set_raw(data)`,
line 75) and handed to `parse_raw`: `Ok` on success, `UnprocessableEntity`
on parse failure.  Result: (client, message handed to send, individual,
outcome). -/
def get_individual_from_db (parseOk : List Nat → Bool) (self : StorageROClient)
    (db_id : StorageId) (id : String) (iraw : Individual) (net : NetStep) :
    StorageROClient × Option (List Nat) × Individual × StorageResult Unit :=
  if ¬self.is_ready ∧ ¬(self.connect net.dialOk).2 then
    ((self.connect net.dialOk).1, none, iraw, .NotReady)
  else
    let self1 := if self.is_ready then self else (self.connect net.dialOk).1
    let req := mkRequest db_id id
    if ¬net.sendOk then (self1, some req, iraw, .NotReady)
    else
      match net.recv with
      | none => (self1, some req, iraw, .NotReady)
      | some data =>
        if data = strBytes "[]" then (self1, some req, iraw, .NotFound)
        else if parseOk data then (self1, some req, { raw := data }, .Ok ())
        else (self1, some req, { raw := data }, .UnprocessableEntity)

/-- `get_value` (lines 97-100). -/
def get_value (self : StorageROClient) (_storage : StorageId) (_key : String) :
    StorageROClient × StorageResult String :=
  (self, .Error "Remote storage does not support get_value")

/-- `get_raw_value` (lines 102-105). -/
def get_raw_value (self : StorageROClient) (_storage : StorageId) (_key : String) :
    StorageROClient × StorageResult (List Nat) :=
  (self, .Error "Remote storage does not support get_raw_value")

/-- `put_value` (lines 107-110): unconditional read-only error. -/
def put_value (self : StorageROClient) (_storage : StorageId) (_key : String)
    (_val : String) : StorageROClient × StorageResult Unit :=
  (self, .Error "Remote storage is read-only")

/-- `put_raw_value` (lines 112-115). -/
def put_raw_value (self : StorageROClient) (_storage : StorageId) (_key : String)
    (_val : List Nat) : StorageROClient × StorageResult Unit :=
  (self, .Error "Remote storage is read-only")

/-- `remove_value` (lines 117-120). -/
def remove_value (self : StorageROClient) (_storage : StorageId) (_key : String) :
    StorageROClient × StorageResult Unit :=
  (self, .Error "Remote storage is read-only")

/-- `count` (lines 122-125). -/
def count (self : StorageROClient) (_storage : StorageId) :
    StorageROClient × StorageResult Nat :=
  (self, .Error "Remote storage does not support count")

end StorageROClient


/-!
## Embedded mapped-database backends (src/lmdb_storage.rs, src/mdbx_storage.rs)

The database engines (heed/LMDB and libmdbx) are external: each read,
write or removal stages a fixed sequence of engine calls (begin
transaction, open table, get/put/delete, commit), and the engine's answers
are an oracle value enumerating which step is the first to deviate from
the all-success path.  `CommitErr` distinguishes a map-full commit failure
from any other cause, because the specification claims a grow-and-retry
policy specific to map-full.  The shared environment handle is elided from
the instance state: it is observable only through the oracle.
-/

/-- Cause of a `txn.commit()` failure. -/
inductive CommitErr where
  | mapFull
  | other
deriving DecidableEq, Repr

/-- Engine outcome of the single write-transaction attempt of `put_kv_lmdb`
(src/lmdb_storage.rs lines 502-538). -/
inductive LmdbPutAttempt where
  | txnFail
  | openFail
  | noDb
  | putFail
  | putOkCommitFail (e : CommitErr)
  | putOkCommitOk
deriving DecidableEq, Repr

/-- `put_kv_lmdb` (lines 502-538): one write transaction; `true` only when
put then commit both succeed; every other path logs and returns `false`. -/
def put_kv_lmdb : LmdbPutAttempt → Bool
  | .txnFail => false
  | .openFail => false
  | .noDb => false
  | .putFail => false
  | .putOkCommitFail _ => false
  | .putOkCommitOk => true

/-- Engine outcome of the single write-transaction attempt of
`remove_from_lmdb` (src/lmdb_storage.rs lines 460-500); `delFalse` is
`db.delete` returning `Ok(false)` (key absent). -/
inductive LmdbRemoveAttempt where
  | txnFail
  | openFail
  | noDb
  | delFail
  | delFalse
  | delTrueCommitFail (e : CommitErr)
  | delTrueCommitOk
deriving DecidableEq, Repr

/-- `remove_from_lmdb` (lines 460-500): `true` only when the key was
deleted and the commit succeeded. -/
def remove_from_lmdb : LmdbRemoveAttempt → Bool
  | .txnFail => false
  | .openFail => false
  | .noDb => false
  | .delFail => false
  | .delFalse => false
  | .delTrueCommitFail _ => false
  | .delTrueCommitOk => true

/-- Engine outcome of the single attempt of `put_kv_mdbx`
(src/mdbx_storage.rs lines 376-408; `open_table` has no `None` case). -/
inductive MdbxPutAttempt where
  | txnFail
  | openFail
  | putFail
  | putOkCommitFail (e : CommitErr)
  | putOkCommitOk
deriving DecidableEq, Repr

/-- `put_kv_mdbx` (lines 376-408). -/
def put_kv_mdbx : MdbxPutAttempt → Bool
  | .txnFail => false
  | .openFail => false
  | .putFail => false
  | .putOkCommitFail _ => false
  | .putOkCommitOk => true

/-- Engine outcome of the single attempt of `remove_from_mdbx`
(src/mdbx_storage.rs lines 338-374). -/
inductive MdbxRemoveAttempt where
  | txnFail
  | openFail
  | delFail
  | delFalse
  | delTrueCommitFail (e : CommitErr)
  | delTrueCommitOk
deriving DecidableEq, Repr

/-- `remove_from_mdbx` (lines 338-374). -/
def remove_from_mdbx : MdbxRemoveAttempt → Bool
  | .txnFail => false
  | .openFail => false
  | .delFail => false
  | .delFalse => false
  | .delTrueCommitFail _ => false
  | .delTrueCommitOk => true

/-- Modelled from the spec (missing from the code): the write path §4.3 and
§7 describe — "on commit failure due to a map-full condition grows the
environment's size bound and retries the entire operation exactly once
recursively".  `a1` is the engine outcome of the first attempt and `a2`
the outcome of the retry after growing; only a map-full commit failure
triggers the retry. -/
def put_kv_lmdb_spec_growRetry (a1 a2 : LmdbPutAttempt) : Bool :=
  match a1 with
  | .putOkCommitFail .mapFull => put_kv_lmdb a2
  | a => put_kv_lmdb a

/-- Modelled from the spec (missing from the code): the same claimed
grow-and-retry policy for the MDBX binding. -/
def put_kv_mdbx_spec_growRetry (a1 a2 : MdbxPutAttempt) : Bool :=
  match a1 with
  | .putOkCommitFail .mapFull => put_kv_mdbx a2
  | a => put_kv_mdbx a

/-- Engine outcome of one read attempt inside `LmdbInstance::get`
(src/lmdb_storage.rs lines 256-299): transaction or database-open failures
make the loop retry; the other outcomes return immediately. -/
inductive LmdbReadAttempt where
  | txnFail
  | openFail
  | noDb
  | getFail
  | found (v : List Nat)
  | absent
deriving DecidableEq, Repr

/-- `LmdbInstance` (src/lmdb_storage.rs lines 73-78); the shared `Arc<Env>`
is elided (observable only through the engine oracle). -/
structure LmdbInstance where
  max_read_counter : Nat
  path : String
  read_counter : Nat
deriving DecidableEq, Repr

namespace LmdbInstance

/-- `LmdbInstance::new` (lines 143-159): the read-counter threshold is the
hard-coded literal 1000. -/
def new (path : String) (_mode : StorageMode) : LmdbInstance :=
  { max_read_counter := 1000, path := path, read_counter := 0 }

/-- The read-counter update at the head of each attempt of `get`
(lines 258-262): increment, then reset to zero once the threshold is
exceeded. -/
def bump (self : LmdbInstance) : LmdbInstance :=
  if self.read_counter + 1 > self.max_read_counter then { self with read_counter := 0 }
  else { self with read_counter := self.read_counter + 1 }

/-- `LmdbInstance::get` (lines 256-299): a loop of at most two attempts,
each beginning with the counter update; transaction-creation and
database-open failures sleep and retry, every other outcome returns at
once; after both attempts fail the call returns `None`.  (The `FromMdbValue`
decode of the found bytes is the caller's concern and elided here.) -/
def get (self : LmdbInstance) (a1 a2 : LmdbReadAttempt) :
    LmdbInstance × Option (List Nat) :=
  let i1 := self.bump
  match a1 with
  | .found v => (i1, some v)
  | .absent => (i1, none)
  | .noDb => (i1, none)
  | .getFail => (i1, none)
  | .txnFail =>
    let i2 := i1.bump
    (i2, match a2 with | .found v => some v | _ => none)
  | .openFail =>
    let i2 := i1.bump
    (i2, match a2 with | .found v => some v | _ => none)

end LmdbInstance

/-- `LMDBStorage` (src/lmdb_storage.rs lines 67-71). -/
structure LMDBStorage where
  individuals_db : LmdbInstance
  tickets_db : LmdbInstance
  az_db : LmdbInstance
deriving DecidableEq, Repr

namespace LMDBStorage

/-- `LMDBStorage::new` (lines 372-387): note the third parameter
`_max_read_counter_reopen: Option<u64>` is bound with a leading underscore
and never used — every instance gets `LmdbInstance::new`'s threshold. -/
def new (db_path : String) (mode : StorageMode)
    (_max_read_counter_reopen : Option Nat) : LMDBStorage :=
  { individuals_db := LmdbInstance.new (db_path ++ "/lmdb-individuals/") mode,
    tickets_db := LmdbInstance.new (db_path ++ "/lmdb-tickets/") mode,
    az_db := LmdbInstance.new (db_path ++ "/acl-indexes/") mode }

/-- `get_db_instance` (lines 389-395). -/
def get_db_instance (self : LMDBStorage) (storage : StorageId) : LmdbInstance :=
  match storage with
  | .Individuals => self.individuals_db
  | .Tickets => self.tickets_db
  | .Az => self.az_db

/-- `put_value` (lines 427-434): `Ok` when `put_kv_lmdb` reports success,
otherwise `Error("Failed to put value")`. -/
def put_value (self : LMDBStorage) (_storage : StorageId) (_key _val : String)
    (a : LmdbPutAttempt) : LMDBStorage × StorageResult Unit :=
  if put_kv_lmdb a then (self, .Ok ()) else (self, .Error "Failed to put value")

/-- `put_raw_value` (lines 436-443). -/
def put_raw_value (self : LMDBStorage) (_storage : StorageId) (_key : String)
    (_val : List Nat) (a : LmdbPutAttempt) : LMDBStorage × StorageResult Unit :=
  if put_kv_lmdb a then (self, .Ok ()) else (self, .Error "Failed to put raw value")

/-- `remove_value` (lines 445-452): `Ok` when `remove_from_lmdb` reports
success, otherwise `NotFound` — whatever the cause of the failure. -/
def remove_value (self : LMDBStorage) (_storage : StorageId) (_key : String)
    (a : LmdbRemoveAttempt) : LMDBStorage × StorageResult Unit :=
  if remove_from_lmdb a then (self, .Ok ()) else (self, .NotFound)

end LMDBStorage

/-- `MdbxInstance` (src/mdbx_storage.rs lines 24-29); the shared
`Arc<Database<WriteMap>>` is elided. -/
structure MdbxInstance where
  max_read_counter : Nat
  path : String
  read_counter : Nat
deriving DecidableEq, Repr

/-- Engine outcome of one read attempt inside `MdbxInstance::get_raw`
(src/mdbx_storage.rs lines 167-206). -/
inductive MdbxReadAttempt where
  | txnFail
  | openFail
  | getFail
  | found (v : List Nat)
  | absent
deriving DecidableEq, Repr

namespace MdbxInstance

/-- `MdbxInstance::new` (lines 100-109): threshold hard-coded to 1000. -/
def new (path : String) (_mode : StorageMode) : MdbxInstance :=
  { max_read_counter := 1000, path := path, read_counter := 0 }

/-- The read-counter update at the head of each attempt of `get_raw`
(lines 169-173). -/
def bump (self : MdbxInstance) : MdbxInstance :=
  if self.read_counter + 1 > self.max_read_counter then { self with read_counter := 0 }
  else { self with read_counter := self.read_counter + 1 }

/-- `MdbxInstance::get_raw` (lines 167-206): at most two attempts, same
retry discipline as the LMDB binding. -/
def get_raw (self : MdbxInstance) (a1 a2 : MdbxReadAttempt) :
    MdbxInstance × Option (List Nat) :=
  let i1 := self.bump
  match a1 with
  | .found v => (i1, some v)
  | .absent => (i1, none)
  | .getFail => (i1, none)
  | .txnFail =>
    let i2 := i1.bump
    (i2, match a2 with | .found v => some v | _ => none)
  | .openFail =>
    let i2 := i1.bump
    (i2, match a2 with | .found v => some v | _ => none)

end MdbxInstance

/-- `MDBXStorage` (src/mdbx_storage.rs lines 18-22). -/
structure MDBXStorage where
  individuals_db : MdbxInstance
  tickets_db : MdbxInstance
  az_db : MdbxInstance
deriving DecidableEq, Repr

namespace MDBXStorage

/-- `MDBXStorage::new` (lines 250-265): the reopen-threshold parameter is
likewise bound with a leading underscore and ignored. -/
def new (db_path : String) (mode : StorageMode)
    (_max_read_counter_reopen : Option Nat) : MDBXStorage :=
  { individuals_db := MdbxInstance.new (db_path ++ "/mdbx-individuals/") mode,
    tickets_db := MdbxInstance.new (db_path ++ "/mdbx-tickets/") mode,
    az_db := MdbxInstance.new (db_path ++ "/acl-indexes/") mode }

/-- `put_value` (lines 305-312). -/
def put_value (self : MDBXStorage) (_storage : StorageId) (_key _val : String)
    (a : MdbxPutAttempt) : MDBXStorage × StorageResult Unit :=
  if put_kv_mdbx a then (self, .Ok ()) else (self, .Error "Failed to put value")

/-- `put_raw_value` (lines 314-321). -/
def put_raw_value (self : MDBXStorage) (_storage : StorageId) (_key : String)
    (_val : List Nat) (a : MdbxPutAttempt) : MDBXStorage × StorageResult Unit :=
  if put_kv_mdbx a then (self, .Ok ()) else (self, .Error "Failed to put raw value")

/-- `remove_value` (lines 323-330). -/
def remove_value (self : MDBXStorage) (_storage : StorageId) (_key : String)
    (a : MdbxRemoveAttempt) : MDBXStorage × StorageResult Unit :=
  if remove_from_mdbx a then (self, .Ok ()) else (self, .NotFound)

end MDBXStorage

end VStore

namespace VStore

theorem charOfNat_toNat (c : Char) : Char.ofNat c.toNat = c := by
  have h : c.toNat.isValidChar := c.valid
  rw [Char.ofNat, dif_pos h]
  apply Char.ext
  apply UInt32.eq_of_toBitVec_eq
  apply BitVec.eq_of_toNat_eq
  simp [Char.ofNatAux, Char.toNat, UInt32.toNat]

theorem char_valid_range (c : Char) :
    c.toNat < 0xD800 ∨ (0xDFFF < c.toNat ∧ c.toNat < 0x110000) := c.valid

theorem decChars_encChar (c : Char) (l : List Nat) :
    decChars (encChar c ++ l) = (decChars l).map (fun cs => c :: cs) := by
  have hv := char_valid_range c
  by_cases h1 : c.toNat < 0x80
  · rw [encChar, if_pos h1]
    simp only [List.cons_append, List.nil_append]
    rw [decChars.eq_def]
    dsimp only
    rw [if_pos h1, charOfNat_toNat]
  · by_cases h2 : c.toNat < 0x800
    · rw [encChar, if_neg h1, if_pos h2]
      simp only [List.cons_append, List.nil_append]
      rw [decChars.eq_def]
      dsimp only
      rw [if_neg (by omega), if_neg (by omega), if_pos (by omega),
          if_pos (by constructor <;> omega), if_pos (by omega)]
      have harg : (0xC0 + c.toNat / 64 - 0xC0) * 64 + (0x80 + c.toNat % 64 - 0x80) = c.toNat := by
        omega
      rw [harg, charOfNat_toNat]
    · by_cases h3 : c.toNat < 0x10000
      · rw [encChar, if_neg h1, if_neg h2, if_pos h3]
        simp only [List.cons_append, List.nil_append]
        rw [decChars.eq_def]
        dsimp only
        rw [if_neg (by omega), if_neg (by omega), if_neg (by omega), if_pos (by omega),
            if_pos (by refine ⟨⟨by omega, by omega⟩, by omega, by omega⟩)]
        have harg : (0xE0 + c.toNat / 4096 - 0xE0) * 4096 +
            (0x80 + c.toNat / 64 % 64 - 0x80) * 64 + (0x80 + c.toNat % 64 - 0x80) = c.toNat := by
          omega
        rw [if_pos (by rw [harg]; omega), harg, charOfNat_toNat]
      · rw [encChar, if_neg h1, if_neg h2, if_neg h3]
        simp only [List.cons_append, List.nil_append]
        rw [decChars.eq_def]
        dsimp only
        rw [if_neg (by omega), if_neg (by omega), if_neg (by omega), if_neg (by omega),
            if_pos (by omega),
            if_pos (by refine ⟨⟨by omega, by omega⟩, ⟨by omega, by omega⟩, by omega, by omega⟩)]
        have harg : (0xF0 + c.toNat / 262144 - 0xF0) * 262144 +
            (0x80 + c.toNat / 4096 % 64 - 0x80) * 4096 +
            (0x80 + c.toNat / 64 % 64 - 0x80) * 64 + (0x80 + c.toNat % 64 - 0x80) = c.toNat := by
          omega
        rw [if_pos (by rw [harg]; omega), harg, charOfNat_toNat]

theorem decChars_encList (cs : List Char) : decChars (encList cs) = some cs := by
  induction cs with
  | nil => rfl
  | cons c cs ih => rw [encList, decChars_encChar, ih]; rfl

/-- Rust invariant: decoding the UTF-8 bytes of a string gives back the string. -/
theorem fromUtf8_strBytes (s : String) : fromUtf8 (strBytes s) = some s := by
  rw [fromUtf8, strBytes, decChars_encList]
  rfl

theorem mapGet_insert_self (m : List (String × List Nat)) (k : String) (v : List Nat) :
    mapGet (mapInsert m k v) k = some v := by
  simp [mapInsert, mapGet]

theorem mapGet_remove_self (m : List (String × List Nat)) (k : String) :
    mapGet (mapRemove m k) k = none := by
  induction m with
  | nil => rfl
  | cons p rest ih =>
    by_cases h : p.1 = k
    · simpa [mapRemove, h] using ih
    · simpa [mapRemove, mapGet, h] using ih

theorem get_storage_set_storage_self (self : MemoryStorage) (storage : StorageId)
    (g : GuardedMap) :
    (self.set_storage storage g).get_storage storage = g := by
  cases storage <;> rfl

end VStore

/-- C9: `StorageResult::map` and `StorageResult::and_then` leave the
`NotFound`, `NotReady`, `UnprocessableEntity` and `Error(message)` variants
unchanged (same tag, same message), apply the function only to the `Ok`
payload, and mapping with the identity function returns the original value. -/
theorem c9_map_andThen_preserve_non_ok :
    (∀ (T U : Type) (f : T → U),
      VStore.StorageResult.map f VStore.StorageResult.NotFound = VStore.StorageResult.NotFound ∧
      VStore.StorageResult.map f VStore.StorageResult.NotReady = VStore.StorageResult.NotReady ∧
      VStore.StorageResult.map f VStore.StorageResult.UnprocessableEntity
        = VStore.StorageResult.UnprocessableEntity ∧
      (∀ msg : String,
        VStore.StorageResult.map f (VStore.StorageResult.Error msg)
          = VStore.StorageResult.Error msg) ∧
      (∀ t : T, VStore.StorageResult.map f (VStore.StorageResult.Ok t)
          = VStore.StorageResult.Ok (f t))) ∧
    (∀ (T U : Type) (g : T → VStore.StorageResult U),
      VStore.StorageResult.and_then g VStore.StorageResult.NotFound
        = VStore.StorageResult.NotFound ∧
      VStore.StorageResult.and_then g VStore.StorageResult.NotReady
        = VStore.StorageResult.NotReady ∧
      VStore.StorageResult.and_then g VStore.StorageResult.UnprocessableEntity
        = VStore.StorageResult.UnprocessableEntity ∧
      (∀ msg : String,
        VStore.StorageResult.and_then g (VStore.StorageResult.Error msg)
          = VStore.StorageResult.Error msg) ∧
      (∀ t : T, VStore.StorageResult.and_then g (VStore.StorageResult.Ok t) = g t)) ∧
    (∀ (T : Type) (r : VStore.StorageResult T), VStore.StorageResult.map id r = r) := by
  refine ⟨fun T U f => ⟨rfl, rfl, rfl, fun msg => rfl, fun t => rfl⟩,
          fun T U g => ⟨rfl, rfl, rfl, fun msg => rfl, fun t => rfl⟩,
          fun T r => ?_⟩
  cases r <;> rfl

namespace VStore

theorem vstorage_step_new {σ : Type} (B : StorageOps σ) (s : σ) (op : StorageOp) :
    VStorage.step B (VStorage.new s) op
      = (VStorage.new (B.step s op).1, (B.step s op).2) := by
  cases op <;> rfl

theorem vstorageGeneric_step_new {σ : Type} (B : StorageOps σ) (s : σ) (op : StorageOp) :
    VStorageGeneric.step B (VStorageGeneric.new s) op
      = (VStorageGeneric.new (B.step s op).1, (B.step s op).2) := by
  cases op <;> rfl

theorem vstorageEnum_step_memory {σm σl σr : Type} (Bm : StorageOps σm) (Bl : StorageOps σl)
    (Br : StorageOps σr) (s : σm) (op : StorageOp) :
    VStorageEnum.step Bm Bl Br (.Memory s) op
      = (.Memory (Bm.step s op).1, (Bm.step s op).2) := rfl

theorem vstorageEnum_step_lmdb {σm σl σr : Type} (Bm : StorageOps σm) (Bl : StorageOps σl)
    (Br : StorageOps σr) (s : σl) (op : StorageOp) :
    VStorageEnum.step Bm Bl Br (.Lmdb s) op
      = (.Lmdb (Bl.step s op).1, (Bl.step s op).2) := rfl

theorem vstorageEnum_step_remote {σm σl σr : Type} (Bm : StorageOps σm) (Bl : StorageOps σl)
    (Br : StorageOps σr) (s : σr) (op : StorageOp) :
    VStorageEnum.step Bm Bl Br (.Remote s) op
      = (.Remote (Br.step s op).1, (Br.step s op).2) := rfl

theorem runOps_vstorage {σ : Type} (B : StorageOps σ) (s : σ) (ops : List StorageOp) :
    runOps (VStorage.step B) (VStorage.new s) ops = runOps (StorageOps.step B) s ops := by
  induction ops generalizing s with
  | nil => rfl
  | cons op ops ih =>
    rw [runOps, runOps, vstorage_step_new]
    exact congrArg _ (ih (B.step s op).1)

theorem runOps_vstorageGeneric {σ : Type} (B : StorageOps σ) (s : σ) (ops : List StorageOp) :
    runOps (VStorageGeneric.step B) (VStorageGeneric.new s) ops
      = runOps (StorageOps.step B) s ops := by
  induction ops generalizing s with
  | nil => rfl
  | cons op ops ih =>
    rw [runOps, runOps, vstorageGeneric_step_new]
    exact congrArg _ (ih (B.step s op).1)

theorem runOps_vstorageEnum_memory {σm σl σr : Type} (Bm : StorageOps σm) (Bl : StorageOps σl)
    (Br : StorageOps σr) (s : σm) (ops : List StorageOp) :
    runOps (VStorageEnum.step Bm Bl Br) (.Memory s) ops = runOps (StorageOps.step Bm) s ops := by
  induction ops generalizing s with
  | nil => rfl
  | cons op ops ih =>
    rw [runOps, runOps, vstorageEnum_step_memory]
    exact congrArg _ (ih (Bm.step s op).1)

theorem runOps_vstorageEnum_lmdb {σm σl σr : Type} (Bm : StorageOps σm) (Bl : StorageOps σl)
    (Br : StorageOps σr) (s : σl) (ops : List StorageOp) :
    runOps (VStorageEnum.step Bm Bl Br) (.Lmdb s) ops = runOps (StorageOps.step Bl) s ops := by
  induction ops generalizing s with
  | nil => rfl
  | cons op ops ih =>
    rw [runOps, runOps, vstorageEnum_step_lmdb]
    exact congrArg _ (ih (Bl.step s op).1)

theorem runOps_vstorageEnum_remote {σm σl σr : Type} (Bm : StorageOps σm) (Bl : StorageOps σl)
    (Br : StorageOps σr) (s : σr) (ops : List StorageOp) :
    runOps (VStorageEnum.step Bm Bl Br) (.Remote s) ops = runOps (StorageOps.step Br) s ops := by
  induction ops generalizing s with
  | nil => rfl
  | cons op ops ih =>
    rw [runOps, runOps, vstorageEnum_step_remote]
    exact congrArg _ (ih (Br.step s op).1)

end VStore

/-- C1: for every sequence of the seven capability operations and equivalent
inner backend instances (the same backend state `s` with the same `Storage`
impl `B`), issuing the sequence through the dynamic wrapper (`VStorage`),
the generic wrapper (`VStorageGeneric`), and the closed-enum wrapper
(`VStorageEnum`, under each of its three backend injections) yields
identical sequences of `StorageResult` replies. -/
theorem c1_dispatch_wrappers_equivalent {σ : Type} (B : VStore.StorageOps σ) (s : σ)
    (ops : List VStore.StorageOp) :
    VStore.runOps (VStore.VStorage.step B) (VStore.VStorage.new s) ops
      = VStore.runOps (VStore.VStorageGeneric.step B) (VStore.VStorageGeneric.new s) ops ∧
    VStore.runOps (VStore.VStorage.step B) (VStore.VStorage.new s) ops
      = VStore.runOps (VStore.VStorageEnum.step B B B) (.Memory s) ops ∧
    VStore.runOps (VStore.VStorage.step B) (VStore.VStorage.new s) ops
      = VStore.runOps (VStore.VStorageEnum.step B B B) (.Lmdb s) ops ∧
    VStore.runOps (VStore.VStorage.step B) (VStore.VStorage.new s) ops
      = VStore.runOps (VStore.VStorageEnum.step B B B) (.Remote s) ops := by
  refine ⟨?_, ?_, ?_, ?_⟩
  · rw [VStore.runOps_vstorage, VStore.runOps_vstorageGeneric]
  · rw [VStore.runOps_vstorage, VStore.runOps_vstorageEnum_memory]
  · rw [VStore.runOps_vstorage, VStore.runOps_vstorageEnum_lmdb]
  · rw [VStore.runOps_vstorage, VStore.runOps_vstorageEnum_remote]

/-- C2: each dispatch wrapper constructed with no backend (`VStorage::none`,
`VStorageGeneric::none`, `VStorageEnum::None`) returns `NotReady` from every
one of the seven operations, for every namespace, key and value argument
(and leaves the wrapper and the caller's `Individual` untouched). -/
theorem c2_empty_wrappers_not_ready {σ : Type} (B : VStore.StorageOps σ)
    (ns : VStore.StorageId) (id key v : String) (bs : List Nat) (iraw : VStore.Individual) :
    ((@VStore.VStorage.none σ).get_individual_from_storage B ns id iraw
       = (VStore.VStorage.none, iraw, .NotReady) ∧
     (@VStore.VStorage.none σ).get_value B ns key = (VStore.VStorage.none, .NotReady) ∧
     (@VStore.VStorage.none σ).get_raw_value B ns key = (VStore.VStorage.none, .NotReady) ∧
     (@VStore.VStorage.none σ).put_value B ns key v = (VStore.VStorage.none, .NotReady) ∧
     (@VStore.VStorage.none σ).put_raw_value B ns key bs = (VStore.VStorage.none, .NotReady) ∧
     (@VStore.VStorage.none σ).remove_value B ns key = (VStore.VStorage.none, .NotReady) ∧
     (@VStore.VStorage.none σ).count B ns = (VStore.VStorage.none, .NotReady)) ∧
    ((@VStore.VStorageGeneric.none σ).get_individual_from_storage B ns id iraw
       = (VStore.VStorageGeneric.none, iraw, .NotReady) ∧
     (@VStore.VStorageGeneric.none σ).get_value B ns key
       = (VStore.VStorageGeneric.none, .NotReady) ∧
     (@VStore.VStorageGeneric.none σ).get_raw_value B ns key
       = (VStore.VStorageGeneric.none, .NotReady) ∧
     (@VStore.VStorageGeneric.none σ).put_value B ns key v
       = (VStore.VStorageGeneric.none, .NotReady) ∧
     (@VStore.VStorageGeneric.none σ).put_raw_value B ns key bs
       = (VStore.VStorageGeneric.none, .NotReady) ∧
     (@VStore.VStorageGeneric.none σ).remove_value B ns key
       = (VStore.VStorageGeneric.none, .NotReady) ∧
     (@VStore.VStorageGeneric.none σ).count B ns
       = (VStore.VStorageGeneric.none, .NotReady)) ∧
    (VStore.VStorageEnum.step B B B .None (.get_individual ns id iraw)
       = (.None, .unitRes .NotReady) ∧
     VStore.VStorageEnum.step B B B .None (.get_value ns key) = (.None, .strRes .NotReady) ∧
     VStore.VStorageEnum.step B B B .None (.get_raw_value ns key)
       = (.None, .bytesRes .NotReady) ∧
     VStore.VStorageEnum.step B B B .None (.put_value ns key v)
       = (.None, .unitRes .NotReady) ∧
     VStore.VStorageEnum.step B B B .None (.put_raw_value ns key bs)
       = (.None, .unitRes .NotReady) ∧
     VStore.VStorageEnum.step B B B .None (.remove_value ns key)
       = (.None, .unitRes .NotReady) ∧
     VStore.VStorageEnum.step B B B .None (.count ns) = (.None, .natRes .NotReady)) := by
  exact ⟨⟨rfl, rfl, rfl, rfl, rfl, rfl, rfl⟩,
         ⟨rfl, rfl, rfl, rfl, rfl, rfl, rfl⟩,
         ⟨rfl, rfl, rfl, rfl, rfl, rfl, rfl⟩⟩

/-- C3: for the in-memory backend, on a namespace whose guard is healthy
(not poisoned): `put_value(ns,k,v)` then `get_value(ns,k)` yields `Ok v`;
`get_value` on an absent key yields `NotFound`; `remove_value` on an absent
key yields `NotFound` (and leaves the state unchanged); `remove_value` on a
present key yields `Ok ()` and a subsequent `get_value` of that key yields
`NotFound`. -/
theorem c3_memory_put_get_remove (self : VStore.MemoryStorage) (ns : VStore.StorageId)
    (k v : String) (hp : (self.get_storage ns).poisoned = false) :
    ((self.put_value ns k v).1.get_value ns k = .Ok v) ∧
    (VStore.mapGet (self.get_storage ns).entries k = none →
       self.get_value ns k = .NotFound) ∧
    (VStore.mapGet (self.get_storage ns).entries k = none →
       self.remove_value ns k = (self, .NotFound)) ∧
    (∀ w : List Nat, VStore.mapGet (self.get_storage ns).entries k = some w →
       (self.remove_value ns k).2 = .Ok () ∧
       (self.remove_value ns k).1.get_value ns k = .NotFound) := by
  refine ⟨?_, ?_, ?_, ?_⟩
  · simp [VStore.MemoryStorage.put_value, VStore.MemoryStorage.get_value, hp,
      VStore.get_storage_set_storage_self, VStore.mapGet_insert_self,
      VStore.fromUtf8_strBytes]
  · intro h
    simp [VStore.MemoryStorage.get_value, hp, h]
  · intro h
    simp [VStore.MemoryStorage.remove_value, hp, h]
  · intro w hw
    constructor
    · simp [VStore.MemoryStorage.remove_value, hp, hw]
    · simp [VStore.MemoryStorage.remove_value, VStore.MemoryStorage.get_value, hp, hw,
        VStore.get_storage_set_storage_self, VStore.mapGet_remove_self]

/-- Witness for C3 at a fresh `MemoryStorage::new()`, namespace
`Individuals`, key `"user:1"`, value `"Ivan"`. -/
theorem c3_memory_put_get_remove_witness :
    ((VStore.MemoryStorage.new.put_value .Individuals "user:1" "Ivan").1.get_value
        .Individuals "user:1" = .Ok "Ivan") ∧
    (VStore.MemoryStorage.new.get_value .Individuals "user:1" = .NotFound) ∧
    (VStore.MemoryStorage.new.remove_value .Individuals "user:1"
       = (VStore.MemoryStorage.new, .NotFound)) ∧
    (((VStore.MemoryStorage.new.put_value .Individuals "user:1" "Ivan").1.remove_value
        .Individuals "user:1").2 = .Ok ()) ∧
    (((VStore.MemoryStorage.new.put_value .Individuals "user:1" "Ivan").1.remove_value
        .Individuals "user:1").1.get_value .Individuals "user:1" = .NotFound) :=
  ⟨(c3_memory_put_get_remove VStore.MemoryStorage.new .Individuals "user:1" "Ivan" rfl).1,
   (c3_memory_put_get_remove VStore.MemoryStorage.new .Individuals "user:1" "Ivan" rfl).2.1 rfl,
   (c3_memory_put_get_remove VStore.MemoryStorage.new .Individuals "user:1" "Ivan" rfl).2.2.1 rfl,
   ((c3_memory_put_get_remove
      (VStore.MemoryStorage.new.put_value .Individuals "user:1" "Ivan").1
      .Individuals "user:1" "Ivan" rfl).2.2.2 (VStore.strBytes "Ivan") rfl).1,
   ((c3_memory_put_get_remove
      (VStore.MemoryStorage.new.put_value .Individuals "user:1" "Ivan").1
      .Individuals "user:1" "Ivan" rfl).2.2.2 (VStore.strBytes "Ivan") rfl).2⟩

/-- C5 counterexample: on a `MemoryStorage` whose `individuals` lock is
poisoned, `get_individual` does *not* return `NotReady`: the source reads
the guard with `.read().unwrap()` (src/memory_storage.rs line 58), so the
call panics (modelled by `none`; a `NotReady` return would be
`some (iraw, NotReady)`). -/
theorem c5_get_individual_poisoned_counterexample :
    VStore.MemoryStorage.get_individual (fun _ => true)
      { individuals := { poisoned := true, entries := [] },
        tickets := { poisoned := false, entries := [] },
        az := { poisoned := false, entries := [] } }
      .Individuals "x" { raw := [] }
      = none := rfl

/-- C5 amended: for every operation of the in-memory backend *except*
`get_individual`, a namespace whose guard cannot be acquired (lock poisoned
by a prior panic) yields `StorageResult::NotReady` without mutating the
state; `get_individual` alone propagates the panic (its guard is taken with
`.unwrap()`). -/
theorem c5_poisoned_lock_behavior (parseOk : List Nat → Bool)
    (self : VStore.MemoryStorage) (ns : VStore.StorageId) (key v : String)
    (bs : List Nat) (iraw : VStore.Individual)
    (hp : (self.get_storage ns).poisoned = true) :
    self.get_value ns key = .NotReady ∧
    self.get_raw_value ns key = .NotReady ∧
    self.put_value ns key v = (self, .NotReady) ∧
    self.put_raw_value ns key bs = (self, .NotReady) ∧
    self.remove_value ns key = (self, .NotReady) ∧
    self.count ns = .NotReady ∧
    VStore.MemoryStorage.get_individual parseOk self ns key iraw = none := by
  refine ⟨?_, ?_, ?_, ?_, ?_, ?_, ?_⟩ <;>
    simp [VStore.MemoryStorage.get_value, VStore.MemoryStorage.get_raw_value,
      VStore.MemoryStorage.put_value, VStore.MemoryStorage.put_raw_value,
      VStore.MemoryStorage.remove_value, VStore.MemoryStorage.count,
      VStore.MemoryStorage.get_individual, hp]

/-- Witness for the amended C5 on a concrete poisoned store. -/
theorem c5_poisoned_lock_behavior_witness :
    VStore.MemoryStorage.get_value
      { individuals := { poisoned := true, entries := [] },
        tickets := { poisoned := false, entries := [] },
        az := { poisoned := false, entries := [] } }
      .Individuals "x" = .NotReady ∧
    VStore.MemoryStorage.count
      { individuals := { poisoned := true, entries := [] },
        tickets := { poisoned := false, entries := [] },
        az := { poisoned := false, entries := [] } }
      .Individuals = .NotReady :=
  ⟨(c5_poisoned_lock_behavior (fun _ => true)
      { individuals := { poisoned := true, entries := [] },
        tickets := { poisoned := false, entries := [] },
        az := { poisoned := false, entries := [] } }
      .Individuals "x" "" [] { raw := [] } rfl).1,
   (c5_poisoned_lock_behavior (fun _ => true)
      { individuals := { poisoned := true, entries := [] },
        tickets := { poisoned := false, entries := [] },
        az := { poisoned := false, entries := [] } }
      .Individuals "x" "" [] { raw := [] } rfl).2.2.2.2.2.1⟩

/-- C6: for the remote read-only client, `put_value`, `put_raw_value` and
`remove_value` return `Error("Remote storage is read-only")` for every
namespace, key and payload, unconditionally (any connection state `self`),
and `count` returns `Error("Remote storage does not support count")`; all
four leave the client untouched, none panics or succeeds. -/
theorem c6_remote_writes_read_only (self : VStore.StorageROClient)
    (ns : VStore.StorageId) (key v : String) (bs : List Nat) :
    self.put_value ns key v = (self, .Error "Remote storage is read-only") ∧
    self.put_raw_value ns key bs = (self, .Error "Remote storage is read-only") ∧
    self.remove_value ns key = (self, .Error "Remote storage is read-only") ∧
    self.count ns = (self, .Error "Remote storage does not support count") :=
  ⟨rfl, rfl, rfl, rfl⟩

/-- C7 counterexample: the remote client does not skip a 5-byte header.  On
a connected client, for the reply `"ABCDEhello"` the individual's raw bytes
are set to the whole reply (src/remote_storage_client.rs line 75:
`iraw.set_raw(data)`), not to the reply with its first 5 bytes dropped as
the claim states — the two byte strings differ. -/
theorem c7_remote_header_skip_counterexample :
    (VStore.StorageROClient.get_individual_from_db (fun _ => true)
        { addr := "a", is_ready := true } .Individuals "x" { raw := [] }
        { dialOk := true, sendOk := true,
          recv := some (VStore.strBytes "ABCDEhello") }).2.2.1
      = { raw := VStore.strBytes "ABCDEhello" } ∧
    decide ((VStore.strBytes "ABCDEhello").drop 5 = VStore.strBytes "ABCDEhello") = false :=
  ⟨rfl, rfl⟩

/-- C7 amended: in the remote client's `get_individual` path, a reply
exactly equal to the two-byte literal `[]` yields `NotFound`; any other
reply is set *whole* as the individual's raw bytes (no header skip) and
parsed, yielding `UnprocessableEntity` on parse failure and `Ok(())` on
success; the request sent is the one-character namespace tag (`t` for
`Tickets`, `i` otherwise) followed by `,` and the key. -/
theorem c7_remote_reply_handling (parseOk : List Nat → Bool)
    (self : VStore.StorageROClient) (db_id : VStore.StorageId) (id : String)
    (iraw : VStore.Individual) (dial : Bool) (data : List Nat)
    (hready : self.is_ready = true) :
    VStore.StorageROClient.mkRequest .Tickets id = VStore.strBytes ("t," ++ id) ∧
    VStore.StorageROClient.mkRequest .Individuals id = VStore.strBytes ("i," ++ id) ∧
    VStore.StorageROClient.mkRequest .Az id = VStore.strBytes ("i," ++ id) ∧
    (data = VStore.strBytes "[]" →
      VStore.StorageROClient.get_individual_from_db parseOk self db_id id iraw
          { dialOk := dial, sendOk := true, recv := some data }
        = (self, some (VStore.StorageROClient.mkRequest db_id id), iraw, .NotFound)) ∧
    (data ≠ VStore.strBytes "[]" → parseOk data = true →
      VStore.StorageROClient.get_individual_from_db parseOk self db_id id iraw
          { dialOk := dial, sendOk := true, recv := some data }
        = (self, some (VStore.StorageROClient.mkRequest db_id id),
           { raw := data }, .Ok ())) ∧
    (data ≠ VStore.strBytes "[]" → parseOk data = false →
      VStore.StorageROClient.get_individual_from_db parseOk self db_id id iraw
          { dialOk := dial, sendOk := true, recv := some data }
        = (self, some (VStore.StorageROClient.mkRequest db_id id),
           { raw := data }, .UnprocessableEntity)) := by
  refine ⟨rfl, rfl, rfl, ?_, ?_, ?_⟩
  · intro h
    simp [VStore.StorageROClient.get_individual_from_db, hready, h]
  · intro h hp
    simp [VStore.StorageROClient.get_individual_from_db, hready, h, hp]
  · intro h hp
    simp [VStore.StorageROClient.get_individual_from_db, hready, h, hp]

/-- Witness for the amended C7 on a connected client, key `"k"`, namespace
`Tickets`, replies `[]` and `"hello"`. -/
theorem c7_remote_reply_handling_witness :
    (VStore.StorageROClient.get_individual_from_db (fun _ => false)
        { addr := "a", is_ready := true } .Tickets "k" { raw := [] }
        { dialOk := true, sendOk := true, recv := some (VStore.strBytes "[]") }
      = ({ addr := "a", is_ready := true },
         some (VStore.StorageROClient.mkRequest .Tickets "k"), { raw := [] }, .NotFound)) ∧
    (VStore.StorageROClient.get_individual_from_db (fun _ => false)
        { addr := "a", is_ready := true } .Tickets "k" { raw := [] }
        { dialOk := true, sendOk := true, recv := some (VStore.strBytes "hello") }
      = ({ addr := "a", is_ready := true },
         some (VStore.StorageROClient.mkRequest .Tickets "k"),
         { raw := VStore.strBytes "hello" }, .UnprocessableEntity)) :=
  ⟨(c7_remote_reply_handling (fun _ => false) { addr := "a", is_ready := true } .Tickets "k"
      { raw := [] } true (VStore.strBytes "[]") rfl).2.2.2.1 rfl,
   (c7_remote_reply_handling (fun _ => false) { addr := "a", is_ready := true } .Tickets "k"
      { raw := [] } true (VStore.strBytes "hello") rfl).2.2.2.2.2 (by decide) rfl⟩

/-- C4 counterexample: the write paths of both embedded backends do not
grow-and-retry on a map-full commit failure.  On the engine history "first
commit fails with map-full, a retry after growing would succeed", the
claimed policy (modelled from the spec as `put_kv_lmdb_spec_growRetry` /
`put_kv_mdbx_spec_growRetry`) yields success, while `put_kv_lmdb` and
`put_kv_mdbx` (src/lmdb_storage.rs lines 509-515, src/mdbx_storage.rs
lines 383-389) return failure: any commit error is logged and `false` is
returned, with no second attempt. -/
theorem c4_grow_retry_counterexample :
    VStore.put_kv_lmdb_spec_growRetry (.putOkCommitFail .mapFull) .putOkCommitOk = true ∧
    VStore.put_kv_lmdb (.putOkCommitFail .mapFull) = false ∧
    VStore.put_kv_mdbx_spec_growRetry (.putOkCommitFail .mapFull) .putOkCommitOk = true ∧
    VStore.put_kv_mdbx (.putOkCommitFail .mapFull) = false :=
  ⟨rfl, rfl, rfl, rfl⟩

/-- C4 amended: for both embedded backends, a commit failure during
`put_value`, `put_raw_value` or `remove_value` — a map-full condition
included — is logged and surfaces as a failed outcome (`Error` for the
puts, `NotFound` for remove) rather than a panic, with *no* growth of the
environment's size bound and *no* retry: the operation makes exactly one
transaction attempt and succeeds exactly on the full put/delete-then-commit
success path. -/
theorem c4_commit_failure_single_attempt (lself : VStore.LMDBStorage)
    (mself : VStore.MDBXStorage) (ns : VStore.StorageId) (key v : String)
    (bs : List Nat) (e : VStore.CommitErr) :
    (∀ a : VStore.LmdbPutAttempt,
      VStore.put_kv_lmdb a = decide (a = .putOkCommitOk)) ∧
    (∀ a : VStore.MdbxPutAttempt,
      VStore.put_kv_mdbx a = decide (a = .putOkCommitOk)) ∧
    (∀ a : VStore.LmdbRemoveAttempt,
      VStore.remove_from_lmdb a = decide (a = .delTrueCommitOk)) ∧
    (∀ a : VStore.MdbxRemoveAttempt,
      VStore.remove_from_mdbx a = decide (a = .delTrueCommitOk)) ∧
    lself.put_value ns key v (.putOkCommitFail e)
      = (lself, .Error "Failed to put value") ∧
    lself.put_raw_value ns key bs (.putOkCommitFail e)
      = (lself, .Error "Failed to put raw value") ∧
    lself.remove_value ns key (.delTrueCommitFail e) = (lself, .NotFound) ∧
    mself.put_value ns key v (.putOkCommitFail e)
      = (mself, .Error "Failed to put value") ∧
    mself.put_raw_value ns key bs (.putOkCommitFail e)
      = (mself, .Error "Failed to put raw value") ∧
    mself.remove_value ns key (.delTrueCommitFail e) = (mself, .NotFound) := by
  refine ⟨fun a => by cases a <;> rfl, fun a => by cases a <;> rfl,
          fun a => by cases a <;> rfl, fun a => by cases a <;> rfl,
          rfl, rfl, rfl, rfl, rfl, rfl⟩

/-- C8 counterexample: constructing either embedded backend with reopen
threshold `Some 5` does not give the instances threshold 5 — the
constructor parameter is bound as `_max_read_counter_reopen` and ignored
(src/lmdb_storage.rs line 372, src/mdbx_storage.rs line 250), and
`LmdbInstance::new` / `MdbxInstance::new` hard-code 1000. -/
theorem c8_threshold_ignored_counterexample :
    (VStore.LMDBStorage.new "db" .ReadWrite (some 5)).individuals_db.max_read_counter
      = 1000 ∧
    decide ((VStore.LMDBStorage.new "db" .ReadWrite
        (some 5)).individuals_db.max_read_counter = 5) = false ∧
    (VStore.MDBXStorage.new "db" .ReadWrite (some 5)).individuals_db.max_read_counter
      = 1000 ∧
    decide ((VStore.MDBXStorage.new "db" .ReadWrite
        (some 5)).individuals_db.max_read_counter = 5) = false :=
  ⟨rfl, rfl, rfl, rfl⟩

/-- C8 amended: the reopen-threshold constructor argument is ignored: with
`Some n` and with `None` alike, every per-namespace instance of both
embedded backends has threshold 1000; every read attempt increments the
instance's read counter, and once the incremented counter exceeds the
threshold it is reset to zero (`get` bumps once per attempt, so once or
twice per call). -/
theorem c8_read_counter_thresholds (db_path : String) (mode : VStore.StorageMode)
    (o : Option Nat) (i : VStore.LmdbInstance) (mi : VStore.MdbxInstance)
    (a1 a2 : VStore.LmdbReadAttempt) (b1 b2 : VStore.MdbxReadAttempt) :
    ((VStore.LMDBStorage.new db_path mode o).individuals_db.max_read_counter = 1000 ∧
     (VStore.LMDBStorage.new db_path mode o).tickets_db.max_read_counter = 1000 ∧
     (VStore.LMDBStorage.new db_path mode o).az_db.max_read_counter = 1000) ∧
    ((VStore.MDBXStorage.new db_path mode o).individuals_db.max_read_counter = 1000 ∧
     (VStore.MDBXStorage.new db_path mode o).tickets_db.max_read_counter = 1000 ∧
     (VStore.MDBXStorage.new db_path mode o).az_db.max_read_counter = 1000) ∧
    (i.read_counter + 1 > i.max_read_counter → i.bump.read_counter = 0) ∧
    (i.read_counter + 1 ≤ i.max_read_counter →
       i.bump.read_counter = i.read_counter + 1) ∧
    ((i.get a1 a2).1 = i.bump ∨ (i.get a1 a2).1 = i.bump.bump) ∧
    (mi.read_counter + 1 > mi.max_read_counter → mi.bump.read_counter = 0) ∧
    (mi.read_counter + 1 ≤ mi.max_read_counter →
       mi.bump.read_counter = mi.read_counter + 1) ∧
    ((mi.get_raw b1 b2).1 = mi.bump ∨ (mi.get_raw b1 b2).1 = mi.bump.bump) := by
  refine ⟨⟨rfl, rfl, rfl⟩, ⟨rfl, rfl, rfl⟩, ?_, ?_, ?_, ?_, ?_, ?_⟩
  · intro h
    simp [VStore.LmdbInstance.bump, if_pos h]
  · intro h
    simp [VStore.LmdbInstance.bump, Nat.not_lt.mpr h]
  · cases a1 <;> first | exact Or.inl rfl | exact Or.inr rfl
  · intro h
    simp [VStore.MdbxInstance.bump, if_pos h]
  · intro h
    simp [VStore.MdbxInstance.bump, Nat.not_lt.mpr h]
  · cases b1 <;> first | exact Or.inl rfl | exact Or.inr rfl

/-- Witness for the amended C8: threshold is 1000 with `Some 5` and with
`None`; a counter at the threshold resets to zero on the next read, a
counter below it increments. -/
theorem c8_read_counter_thresholds_witness :
    (VStore.LMDBStorage.new "db" .ReadWrite none).individuals_db.max_read_counter
      = 1000 ∧
    (VStore.LmdbInstance.bump ⟨1000, "p", 1000⟩).read_counter = 0 ∧
    (VStore.LmdbInstance.bump ⟨1000, "p", 3⟩).read_counter = 4 ∧
    (VStore.MdbxInstance.bump ⟨1000, "p", 1000⟩).read_counter = 0 :=
  ⟨(c8_read_counter_thresholds "db" .ReadWrite none ⟨1000, "p", 0⟩ ⟨1000, "p", 0⟩
      .absent .absent .absent .absent).1.1,
   (c8_read_counter_thresholds "db" .ReadWrite none ⟨1000, "p", 1000⟩ ⟨1000, "p", 0⟩
      .absent .absent .absent .absent).2.2.1 (by decide),
   (c8_read_counter_thresholds "db" .ReadWrite none ⟨1000, "p", 3⟩ ⟨1000, "p", 0⟩
      .absent .absent .absent .absent).2.2.2.1 (by decide),
   (c8_read_counter_thresholds "db" .ReadWrite none ⟨1000, "p", 0⟩ ⟨1000, "p", 1000⟩
      .absent .absent .absent .absent).2.2.2.2.2.1 (by decide)⟩

/-- C10: for both embedded backends, `remove_value` never returns
`StorageResult::Error`: it returns `Ok(())` exactly when the engine
reported a deleted key and a successful commit, and `NotFound` in every
other case — transaction-creation failure, table-open failure, delete
failure, commit failure and absent key included. -/
theorem c10_remove_value_never_error (lself : VStore.LMDBStorage)
    (mself : VStore.MDBXStorage) (ns : VStore.StorageId) (key : String)
    (a : VStore.LmdbRemoveAttempt) (am : VStore.MdbxRemoveAttempt) :
    lself.remove_value ns key a
      = (lself, if a = .delTrueCommitOk then .Ok () else .NotFound) ∧
    mself.remove_value ns key am
      = (mself, if am = .delTrueCommitOk then .Ok () else .NotFound) := by
  constructor
  · cases a <;> rfl
  · cases am <;> rfl
